import Mathlib

/-!
Shallow embedding of the sandboxed coding-agent program in `src/app.py`.

The program exposes four filesystem tools (`get_files_info`, `get_file_content`,
`write_file`, `run_python_file`), a dispatcher (`execute_tool`) and an agentic
chat loop bounded by ten rounds.  Paths are POSIX strings; the program resolves
a path argument with `os.path.abspath(os.path.join(WORKING_DIR, p))` and guards
the sandbox with the string test `abs_path.startswith(WORKING_DIR)`.

The filesystem is modelled as a finite collection of files (path components
paired with string content) and directories (path components).  Script
execution is modelled by an oracle assigning each resolved script path and
argument list a behaviour (wall-clock duration, stdout, stderr); the semantics
of `subprocess.run(..., timeout=15)` — completion when the duration is within
the budget, kill-plus-`TimeoutExpired` otherwise — is part of the embedding of
that library call.  Exception messages produced by Python `str(e)` are modelled
as fixed distinctive strings without quoting.
-/

/-- Test whether one character list is a prefix of another (embeds the prefix
test underlying the Python string method used by the sandbox guard). -/
def listStartsWithList : List Char → List Char → Bool
  | [], _ => true
  | _ :: _, [] => false
  | a :: as, b :: bs => a == b && listStartsWithList as bs

/-- Embedding of the Python string method `s.startswith(pre)`. -/
def strStartsWith (s pre : String) : Bool :=
  listStartsWithList pre.data s.data

/-- Split a character list on a separator character; embeds `str.split("/")`
as used conceptually by POSIX path normalisation. -/
def splitCharsOn (sep : Char) : List Char → List String
  | [] => [""]
  | c :: cs =>
    let rest := splitCharsOn sep cs
    if c == sep then "" :: rest
    else
      match rest with
      | [] => [String.mk [c]]
      | r :: rs => String.mk (c :: r.data) :: rs

/-- Split a POSIX path string into its slash-separated pieces. -/
def splitOnSlash (s : String) : List String :=
  splitCharsOn '/' s.data

/-- One step of lexical path normalisation: empty pieces and `.` are dropped,
`..` removes the last component (at the root it is a no-op), anything else is
appended.  This is the component-processing rule of `os.path.normpath` on an
absolute POSIX path. -/
def normStep (stack : List String) (c : String) : List String :=
  if c = "" ∨ c = "." then stack
  else if c = ".." then stack.dropLast
  else stack ++ [c]

/-- Lexical normalisation of the components of an absolute POSIX path. -/
def normComps (cs : List String) : List String :=
  cs.foldl normStep []

/-- Join components by slashes; embeds the intercalation step of rendering. -/
def joinBySlash : List String → String
  | [] => ""
  | [x] => x
  | x :: y :: ys => x ++ "/" ++ joinBySlash (y :: ys)

/-- Render normalised components back into an absolute path string. -/
def renderAbs (cs : List String) : String :=
  "/" ++ joinBySlash cs

/-- Embedding of `os.path.join(root, p)` for an absolute `root` that does not
end in a slash: an absolute `p` replaces the root, otherwise the two are joined
with a slash. -/
def joinPath (root p : String) : String :=
  if strStartsWith p "/" then p else root ++ "/" ++ p

/-- The components of `os.path.abspath(os.path.join(root, p))`. -/
def resolvedComps (root p : String) : List String :=
  normComps (splitOnSlash (joinPath root p))

/-- The string `os.path.abspath(os.path.join(root, p))` computed by every tool.
-/
def resolvedPath (root p : String) : String :=
  renderAbs (resolvedComps root p)

/-- The sandbox guard actually executed by the program:
`abs_path.startswith(WORKING_DIR)`. -/
def passesSandboxCheck (root p : String) : Bool :=
  strStartsWith (resolvedPath root p) root

/-- Modelled from the spec: true containment of the resolved path in the
workspace root (the resolved location equals the root or lies strictly below
it).  This is the property the specification demands of every tool; it is kept
separate from `passesSandboxCheck` so the two can be compared. -/
def insideRootB (root p : String) : Bool :=
  resolvedPath root p = root || strStartsWith (resolvedPath root p) (root ++ "/")

/-- Absolute, normalised path represented by its components. -/
abbrev PathC := List String

/-- The filesystem state visible to the tools: files with their text content
and the set of existing directories, both keyed by normalised absolute path
components. -/
structure FS where
  files : List (PathC × String)
  dirs : List PathC
  deriving DecidableEq

/-- Content of the file at a path, when a file is there. -/
def lookupFile (fs : FS) (p : PathC) : Option String :=
  (fs.files.find? (fun e => e.1 == p)).map (fun e => e.2)

/-- `os.path.isdir` on the modelled filesystem. -/
def isDirFS (fs : FS) (p : PathC) : Bool :=
  fs.dirs.contains p

/-- Whether a regular file lives at the path. -/
def isFileFS (fs : FS) (p : PathC) : Bool :=
  fs.files.any (fun e => e.1 == p)

/-- `os.path.exists` on the modelled filesystem. -/
def pathExistsFS (fs : FS) (p : PathC) : Bool :=
  isFileFS fs p || isDirFS fs p

/-- All the ancestor component lists of a path, the path itself included. -/
def prefixesOf (cs : PathC) : List PathC :=
  (List.range (cs.length + 1)).map (fun n => cs.take n)

/-- Embedding of `os.makedirs(d, exist_ok=True)`: fails (raises) when some
ancestor of `d`, or `d` itself, already exists as a regular file; otherwise
creates every missing directory on the way down. -/
def makedirs (fs : FS) (d : PathC) : Option FS :=
  if (prefixesOf d).any (fun pre => isFileFS fs pre) then none
  else some ⟨fs.files, fs.dirs ++ (prefixesOf d).filter (fun pre => !fs.dirs.contains pre)⟩

/-- Overwrite (or create) the file at a path with the given content; embeds
`open(abs_path, "w").write(content)` on a path whose parent directories exist.
-/
def setFile (fs : FS) (p : PathC) (c : String) : FS :=
  ⟨(p, c) :: fs.files.filter (fun e => !(e.1 == p)), fs.dirs⟩

/-- The immediate child entry name a candidate path contributes to a directory
listing, when it is an immediate child of the directory. -/
def childName (d p : PathC) : Option String :=
  if p.length = d.length + 1 ∧ p.take d.length = d then p.getLast? else none

/-- Every path present in the filesystem (files first, then directories). -/
def entryPaths (fs : FS) : List PathC :=
  fs.files.map (fun e => e.1) ++ fs.dirs

/-- Embedding of `os.listdir` on an existing directory: the names of its
immediate children, in the deterministic order of the filesystem model. -/
def childrenNames (fs : FS) (d : PathC) : List String :=
  (entryPaths fs).filterMap (childName d)

/-- First `n` characters of a string; embeds Python `f.read(10000)`. -/
def strTake (s : String) (n : Nat) : String :=
  String.mk (s.data.take n)

/-- Model of Python `str(e)` for a `NotADirectoryError`. -/
def notADirectoryMsg (p : String) : String :=
  "[Errno 20] Not a directory: " ++ p

/-- Model of Python `str(e)` for an `IsADirectoryError`. -/
def isADirectoryMsg (p : String) : String :=
  "[Errno 21] Is a directory: " ++ p

/-- Model of Python `str(e)` for the `FileExistsError` (or
`NotADirectoryError`) raised by `os.makedirs` when a file is in the way. -/
def makedirsErrMsg (p : String) : String :=
  "[Errno 17] File exists: " ++ p

/-- One line of the directory listing produced by `get_files_info`. -/
def listingLine (fs : FS) (absC : PathC) (item : String) : String :=
  "- " ++ item ++ " [" ++ (if isDirFS fs (absC ++ [item]) then "DIR" else "FILE") ++ "]\n"

/-- Embedding of `get_files_info` from `src/app.py`: sandbox guard, existence
check, the empty-directory sentinel, and the formatted listing; listing a path
that exists as a regular file raises `NotADirectoryError` inside the `try`,
which the function returns as `str(e)`. -/
def get_files_info (fs : FS) (root directory : String) : String :=
  let absC := resolvedComps root directory
  if !passesSandboxCheck root directory then "Error: Outside workspace."
  else if !pathExistsFS fs absC then "Error: Directory does not exist."
  else if isDirFS fs absC then
    let contents := childrenNames fs absC
    if contents.isEmpty then "Directory is empty."
    else "Contents of " ++ directory ++ ":\n" ++ String.join (contents.map (listingLine fs absC))
  else notADirectoryMsg (resolvedPath root directory)

/-- Embedding of `get_file_content` from `src/app.py`: sandbox guard,
existence check, then `open(...).read(10000)`; opening a path that exists as a
directory raises `IsADirectoryError` inside the `try`, returned as `str(e)`. -/
def get_file_content (fs : FS) (root file_path : String) : String :=
  let absC := resolvedComps root file_path
  if !passesSandboxCheck root file_path then "Error: Outside workspace."
  else if !pathExistsFS fs absC then "Error: File does not exist."
  else
    match lookupFile fs absC with
    | some content => strTake content 10000
    | none => isADirectoryMsg (resolvedPath root file_path)

/-- The success message of `write_file`. -/
def writeSuccessMsg (file_path : String) (n : Nat) : String :=
  "Success! Wrote " ++ toString n ++ " characters to " ++ file_path ++ "."

/-- Parent path: `os.path.dirname` on components. -/
def dirnameC (p : PathC) : PathC :=
  p.dropLast

/-- Embedding of `write_file` from `src/app.py`: sandbox guard, then
`os.makedirs(dirname, exist_ok=True)` and `open(abs_path, "w")`; a failure of
either (file in the way of a directory, or the target being an existing
directory) is returned as `str(e)`. -/
def write_file (fs : FS) (root file_path content : String) : String × FS :=
  let absC := resolvedComps root file_path
  if !passesSandboxCheck root file_path then ("Error: Outside workspace.", fs)
  else
    match makedirs fs (dirnameC absC) with
    | none => (makedirsErrMsg (renderAbs (dirnameC absC)), fs)
    | some fs1 =>
      if isDirFS fs1 absC then (isADirectoryMsg (resolvedPath root file_path), fs1)
      else (writeSuccessMsg file_path content.length, setFile fs1 absC content)

/-- Observable behaviour of a script: wall-clock duration in seconds and the
two output streams it would produce on completion. -/
structure ScriptBehavior where
  duration : Nat
  stdout : String
  stderr : String

/-- What happened to the child process of `run_python_file`: never spawned,
killed by the 15-second timeout, or ran to completion. -/
inductive RunOutcome where
  | notRun
  | timedOutKilled
  | completed
  deriving DecidableEq

/-- Model of Python `str(e)` for the `subprocess.TimeoutExpired` raised after
the 15-second budget. -/
def timeoutMsg (p : String) : String :=
  "Command [python3, " ++ p ++ "] timed out after 15 seconds"

/-- Embedding of `run_python_file` from `src/app.py`, parameterised by a
behaviour oracle for the resolved script path and arguments.  `subprocess.run`
with `timeout=15` kills the child and raises `TimeoutExpired` when the
duration exceeds the budget (library semantics); otherwise the function
returns the labelled `STDOUT:` section followed, when stderr is non-empty, by
the labelled `STDERR:` section. -/
def run_python_file (behav : String → List String → ScriptBehavior)
    (root file_path : String) (args : List String) : String × RunOutcome :=
  let abs_path := resolvedPath root file_path
  if !passesSandboxCheck root file_path then ("Error: Outside workspace.", RunOutcome.notRun)
  else
    let b := behav abs_path args
    if 15 < b.duration then (timeoutMsg abs_path, RunOutcome.timedOutKilled)
    else
      let out := "STDOUT:\n" ++ b.stdout ++ "\n"
      (if b.stderr = "" then out else out ++ "STDERR:\n" ++ b.stderr ++ "\n", RunOutcome.completed)

/-- A value of the argument mapping of a tool call: the schema only uses
strings and arrays of strings. -/
inductive ArgVal where
  | s (v : String)
  | l (v : List String)
  deriving DecidableEq

/-- A tool call produced by the model: a tool name and the argument mapping.
-/
structure FuncCall where
  name : String
  args : List (String × ArgVal)
  deriving DecidableEq

/-- Dictionary lookup in the argument mapping (`args.get(k)` / `args[k]`
before the presence check). -/
def getArg (args : List (String × ArgVal)) (k : String) : Option ArgVal :=
  (args.find? (fun e => e.1 == k)).map (fun e => e.2)

/-- What the dispatcher produced: either a returned result string together
with the filesystem afterwards and the child-process outcome, or an uncaught
Python exception (the dispatcher has no `try`, so a `KeyError` from a missing
required argument propagates and crashes the script run). -/
inductive DispatchResult where
  | ok (result : String) (fs : FS) (run : RunOutcome)
  | raised (exn : String)
  deriving DecidableEq

/-- Model of Python `str` rendering of an uncaught `KeyError`. -/
def keyErrorMsg (k : String) : String :=
  "KeyError: " ++ k

/-- Model of an uncaught `TypeError` from handing a list where a string path
is consumed (the join happens outside any `try`).  None of the claims
exercises a wrongly-typed argument; the uniform message only marks the raised
branch. -/
def typeErrorMsg : String :=
  "TypeError: expected str"

/-- Embedding of `execute_tool` from `src/app.py`: name-directed dispatch to
the four tools; `args.get("directory", ".")` and `args.get("args", [])`
default the optional arguments, while `args["file_path"]` and
`args["content"]` raise `KeyError` when absent (evaluated left to right);
unknown names fall through to the literal result string.  A string handed to
the `args` array parameter is iterated character by character, as Python
`list.extend` does. -/
def execute_tool (behav : String → List String → ScriptBehavior)
    (fs : FS) (root : String) (call : FuncCall) : DispatchResult :=
  if call.name = "get_files_info" then
    match getArg call.args "directory" with
    | none => DispatchResult.ok (get_files_info fs root ".") fs RunOutcome.notRun
    | some (ArgVal.s v) => DispatchResult.ok (get_files_info fs root v) fs RunOutcome.notRun
    | some (ArgVal.l _) => DispatchResult.raised typeErrorMsg
  else if call.name = "get_file_content" then
    match getArg call.args "file_path" with
    | none => DispatchResult.raised (keyErrorMsg "file_path")
    | some (ArgVal.s v) => DispatchResult.ok (get_file_content fs root v) fs RunOutcome.notRun
    | some (ArgVal.l _) => DispatchResult.raised typeErrorMsg
  else if call.name = "write_file" then
    match getArg call.args "file_path", getArg call.args "content" with
    | none, _ => DispatchResult.raised (keyErrorMsg "file_path")
    | some _, none => DispatchResult.raised (keyErrorMsg "content")
    | some (ArgVal.s fp), some (ArgVal.s c) =>
      let r := write_file fs root fp c
      DispatchResult.ok r.1 r.2 RunOutcome.notRun
    | _, _ => DispatchResult.raised typeErrorMsg
  else if call.name = "run_python_file" then
    match getArg call.args "file_path" with
    | none => DispatchResult.raised (keyErrorMsg "file_path")
    | some (ArgVal.l _) => DispatchResult.raised typeErrorMsg
    | some (ArgVal.s fp) =>
      let as :=
        match getArg call.args "args" with
        | none => []
        | some (ArgVal.l vs) => vs
        | some (ArgVal.s v) => v.data.map (fun ch => String.mk [ch])
      let r := run_python_file behav root fp as
      DispatchResult.ok r.1 fs r.2
  else DispatchResult.ok "Error: Tool not found." fs RunOutcome.notRun

/-- One part of a conversation content: plain text, a function call from the
model, or a function response fed back to the model. -/
inductive MsgPart where
  | textPart (t : String)
  | funcCallPart (fc : FuncCall)
  | funcRespPart (name : String) (result : String)
  deriving DecidableEq

/-- One turn of the conversation (`types.Content`): a role and its parts. -/
structure Content where
  role : String
  parts : List MsgPart
  deriving DecidableEq

/-- The content appended for the user prompt. -/
def userTextContent (t : String) : Content :=
  ⟨"user", [MsgPart.textPart t]⟩

/-- The content appended for a tool result (the program sends function
responses back with role `user`). -/
def toolRespContent (name result : String) : Content :=
  ⟨"user", [MsgPart.funcRespPart name result]⟩

/-- A model reply as the loop observes it: the candidate content to append,
the derived list of requested function calls, and the reply text. -/
structure ModelResponse where
  candidateContent : Option Content
  function_calls : List FuncCall
  text : String
  deriving DecidableEq

/-- The whole observable state of one chat session: the conversation history
(`st.session_state.messages`), the filesystem, everything written to the page
or the status box, the status-box label, whether the exchange reached the
break (final answer), an uncaught exception if one crashed the run, and a
ghost counter of model invocations. -/
structure LoopState where
  messages : List Content
  fs : FS
  displayed : List String
  statusLabel : String
  finished : Bool
  crashed : Option String
  modelCalls : Nat
  deriving DecidableEq

/-- Status-box notice printed before a tool runs. -/
def toolNotice (name : String) : String :=
  "Running tool: " ++ name

/-- The body of one iteration of the agentic loop, after the model reply is
in hand: append the candidate content, then either finish with the reply text
(no function calls), or announce and dispatch the first requested call,
appending its result as a function-response turn.  The returned flag says
whether the loop continues to another round. -/
def loopRound (behav : String → List String → ScriptBehavior) (root : String)
    (response : ModelResponse) (st : LoopState) : LoopState × Bool :=
  let st1 :=
    match response.candidateContent with
    | some c => { st with messages := st.messages ++ [c] }
    | none => st
  match response.function_calls with
  | [] =>
    ({ st1 with
        statusLabel := "Task Complete!"
        finished := true
        displayed := st1.displayed ++ [response.text] }, false)
  | fc :: _ =>
    let st2 := { st1 with displayed := st1.displayed ++ [toolNotice fc.name] }
    match execute_tool behav st2.fs root fc with
    | DispatchResult.raised e => ({ st2 with crashed := some e }, false)
    | DispatchResult.ok res fs2 _ =>
      ({ st2 with
          fs := fs2
          messages := st2.messages ++ [toolRespContent fc.name res] }, true)

/-- Embedding of the `for i in range(10)` agentic loop: invoke the model on
the full history, run one round, and continue while a tool call was handled
and fuel remains.  The fuel argument is the remaining turn budget. -/
def runLoop (model : List Content → ModelResponse)
    (behav : String → List String → ScriptBehavior) (root : String) :
    Nat → LoopState → LoopState
  | 0, st => st
  | Nat.succ n, st =>
    let response := model st.messages
    let r := loopRound behav root response { st with modelCalls := st.modelCalls + 1 }
    if r.2 then runLoop model behav root n r.1 else r.1

/-- A fresh session state over an initial filesystem. -/
def initLoopState (fs : FS) : LoopState :=
  ⟨[], fs, [], "", false, none, 0⟩

/-- Embedding of one user exchange: display the prompt, append the user turn,
open the status box, and run the loop with the budget of ten rounds. -/
def handleUserPrompt (model : List Content → ModelResponse)
    (behav : String → List String → ScriptBehavior) (root : String)
    (prompt : String) (st : LoopState) : LoopState :=
  runLoop model behav root 10
    { st with
        messages := st.messages ++ [userTextContent prompt]
        displayed := st.displayed ++ [prompt]
        statusLabel := "Agent is thinking..." }

/-! Helper lemmas and concrete fixtures used by the verification below. -/

/-- Data of an appended string is the appended data. -/
theorem strDataAppend (a b : String) : (a ++ b).data = a.data ++ b.data := by
  cases a; cases b; rfl

/-- Two character lists whose heads differ are different, even after extending
the first with any tail. -/
theorem consAppendNe (a b : Char) (l1 l2 l3 : List Char) (hab : ¬ a = b) :
    ¬ (a :: l1) ++ l3 = b :: l2 := by
  rw [List.cons_append]
  intro h
  injection h with h1 _
  exact hab h1

/-- The directory-read error message is never the missing-file message. -/
theorem isADirectoryMsg_ne_notfound (x : String) :
    ¬ isADirectoryMsg x = "Error: File does not exist." := by
  intro h
  have h2 := congrArg String.data h
  simp only [isADirectoryMsg] at h2
  rw [strDataAppend] at h2
  exact consAppendNe '[' 'E' _ _ _ (by decide) h2

/-- After writing, a file is present at the written path. -/
theorem isFileFS_setFile (fs : FS) (p : PathC) (c : String) :
    isFileFS (setFile fs p c) p = true := by
  simp [isFileFS, setFile]

/-- After writing, looking up the written path yields the written content. -/
theorem lookupFile_setFile (fs : FS) (p : PathC) (c : String) :
    lookupFile (setFile fs p c) p = some c := by
  simp [lookupFile, setFile]

/-- Taking at least the whole length of a list is the identity. -/
theorem take_all_of_len_le (l : List Char) : ∀ n, l.length ≤ n → l.take n = l := by
  induction l with
  | nil => intro n _; simp
  | cons a as ih =>
    intro n hn
    cases n with
    | zero => simp at hn
    | succ m =>
      rw [List.take_succ_cons, ih m (Nat.le_of_succ_le_succ hn)]

/-- Reading back at most the length of the string is the identity. -/
theorem strTake_of_le (c : String) (hle : c.length ≤ 10000) : strTake c 10000 = c := by
  cases c with
  | mk data =>
    have h : data.take 10000 = data := take_all_of_len_le data 10000 hle
    simp [strTake, h]

/-- A round of the loop leaves the ghost model-invocation counter unchanged
(the counter is bumped by the caller, before the round). -/
theorem loopRound_modelCalls (behav : String → List String → ScriptBehavior)
    (root : String) (r : ModelResponse) (st : LoopState) :
    (loopRound behav root r st).1.modelCalls = st.modelCalls := by
  rcases r with ⟨oc, fcs, txt⟩
  cases oc with
  | none =>
    cases fcs with
    | nil => simp [loopRound]
    | cons fc rest =>
      cases hex : execute_tool behav st.fs root fc with
      | raised e => simp [loopRound, hex]
      | ok res fs2 ro => simp [loopRound, hex]
  | some c =>
    cases fcs with
    | nil => simp [loopRound]
    | cons fc rest =>
      cases hex : execute_tool behav st.fs root fc with
      | raised e => simp [loopRound, hex]
      | ok res fs2 ro => simp [loopRound, hex]

/-- A round of the loop only appends to the conversation history. -/
theorem loopRound_messages_extends (behav : String → List String → ScriptBehavior)
    (root : String) (r : ModelResponse) (st : LoopState) :
    ∃ t, (loopRound behav root r st).1.messages = st.messages ++ t := by
  rcases r with ⟨oc, fcs, txt⟩
  cases oc with
  | none =>
    cases fcs with
    | nil => exact ⟨[], by simp [loopRound]⟩
    | cons fc rest =>
      cases hex : execute_tool behav st.fs root fc with
      | raised e => exact ⟨[], by simp [loopRound, hex]⟩
      | ok res fs2 ro => exact ⟨[toolRespContent fc.name res], by simp [loopRound, hex]⟩
  | some c =>
    cases fcs with
    | nil => exact ⟨[c], by simp [loopRound]⟩
    | cons fc rest =>
      cases hex : execute_tool behav st.fs root fc with
      | raised e => exact ⟨[c], by simp [loopRound, hex]⟩
      | ok res fs2 ro =>
        exact ⟨[c] ++ [toolRespContent fc.name res], by simp [loopRound, hex]⟩

/-- The whole loop only appends to the conversation history. -/
theorem runLoop_messages_extends (model : List Content → ModelResponse)
    (behav : String → List String → ScriptBehavior) (root : String) :
    ∀ (n : Nat) (st : LoopState),
      ∃ t, (runLoop model behav root n st).messages = st.messages ++ t := by
  intro n
  induction n with
  | zero => intro st; exact ⟨[], by simp [runLoop]⟩
  | succ m ih =>
    intro st
    simp only [runLoop]
    have hstep : ∃ t,
        (loopRound behav root (model st.messages)
          { st with modelCalls := st.modelCalls + 1 }).1.messages = st.messages ++ t :=
      loopRound_messages_extends behav root (model st.messages)
        { st with modelCalls := st.modelCalls + 1 }
    by_cases hc : (loopRound behav root (model st.messages)
        { st with modelCalls := st.modelCalls + 1 }).2 = true
    · rw [if_pos hc]
      obtain ⟨t1, ht1⟩ := hstep
      obtain ⟨t2, ht2⟩ := ih (loopRound behav root (model st.messages)
        { st with modelCalls := st.modelCalls + 1 }).1
      exact ⟨t1 ++ t2, by rw [ht2, ht1, List.append_assoc]⟩
    · rw [if_neg hc]
      exact hstep

/-- The whole loop performs at most as many model invocations as it has fuel.
-/
theorem runLoop_modelCalls_le (model : List Content → ModelResponse)
    (behav : String → List String → ScriptBehavior) (root : String) :
    ∀ (n : Nat) (st : LoopState),
      (runLoop model behav root n st).modelCalls ≤ st.modelCalls + n := by
  intro n
  induction n with
  | zero => intro st; simp [runLoop]
  | succ m ih =>
    intro st
    simp only [runLoop]
    have h1 : (loopRound behav root (model st.messages)
        { st with modelCalls := st.modelCalls + 1 }).1.modelCalls = st.modelCalls + 1 :=
      loopRound_modelCalls behav root (model st.messages)
        { st with modelCalls := st.modelCalls + 1 }
    by_cases hc : (loopRound behav root (model st.messages)
        { st with modelCalls := st.modelCalls + 1 }).2 = true
    · rw [if_pos hc]
      have h2 := ih (loopRound behav root (model st.messages)
        { st with modelCalls := st.modelCalls + 1 }).1
      rw [h1] at h2
      omega
    · rw [if_neg hc]
      rw [h1]
      omega

/-- A workspace root as `os.path.abspath("workspace")` would produce it when
the process runs in `/app`. -/
def wsRoot : String := "/app/workspace"

/-- A filesystem holding just the root directory and its ancestors. -/
def baseFS : FS := ⟨[], [[], ["app"], ["app", "workspace"]]⟩

/-- `baseFS` with one empty subdirectory `sub` inside the workspace. -/
def subFS : FS := ⟨[], [[], ["app"], ["app", "workspace"], ["app", "workspace", "sub"]]⟩

/-- A script-behaviour oracle whose scripts finish immediately and silently. -/
def defaultBehav : String → List String → ScriptBehavior := fun _ _ => ⟨0, "", ""⟩

/-- An oracle whose scripts outlive the 15-second budget. -/
def slowBehav : String → List String → ScriptBehavior := fun _ _ => ⟨20, "", ""⟩

/-- An oracle whose scripts finish quickly and print `Hi`. -/
def fastBehav : String → List String → ScriptBehavior := fun _ _ => ⟨1, "Hi", ""⟩

/-- A mock model that requests a `get_files_info` call on every reply. -/
def alwaysToolModel : List Content → ModelResponse :=
  fun _ => ⟨some ⟨"model", [MsgPart.funcCallPart ⟨"get_files_info", []⟩]⟩,
    [⟨"get_files_info", []⟩], ""⟩

/-- The session state after one exchange against the always-calling model. -/
def c4Final : LoopState :=
  handleUserPrompt alwaysToolModel defaultBehav wsRoot "go" (initLoopState baseFS)

/-- Substring occurrence test on character lists. -/
def listHasSub (pat : List Char) : List Char → Bool
  | [] => listStartsWithList pat []
  | c :: cs => listStartsWithList pat (c :: cs) || listHasSub pat cs

/-- Substring occurrence test on strings. -/
def containsSub (s pat : String) : Bool :=
  listHasSub pat.data s.data

/-! The claims. -/

/-- Claim C1 (code bug): the program guards the sandbox with the string test
`abs_path.startswith(WORKING_DIR)`, which accepts sibling directories whose
name extends the root name.  For the workspace root `/app/workspace`, the
path `../workspace_pwned/stolen.txt` resolves to
`/app/workspace_pwned/stolen.txt` — outside the root — yet the guard passes,
`write_file` does not return the OutOfSandbox error, and it creates a file
outside the root, contradicting the claim that every out-of-root resolution is
rejected before any I/O. -/
theorem c1_sandbox_check_bypassed :
    insideRootB wsRoot "../workspace_pwned/stolen.txt" = false ∧
    passesSandboxCheck wsRoot "../workspace_pwned/stolen.txt" = true ∧
    ¬ (write_file baseFS wsRoot "../workspace_pwned/stolen.txt" "pwned").1 =
      "Error: Outside workspace." ∧
    ¬ (write_file baseFS wsRoot "../workspace_pwned/stolen.txt" "pwned").2 = baseFS ∧
    lookupFile (write_file baseFS wsRoot "../workspace_pwned/stolen.txt" "pwned").2
      ["app", "workspace_pwned", "stolen.txt"] = some "pwned" := by
  decide

/-- Claim C2, counterexample: the claim quantifies over every in-sandbox path,
but for the in-sandbox path `sub`, which names an existing directory,
`write_file` fails (`IsADirectoryError`) and the immediate read returns the
directory error message rather than the two-character content `hi`. -/
theorem c2_counterexample :
    insideRootB wsRoot "sub" = true ∧
    ("hi" : String).length ≤ 10000 ∧
    ¬ get_file_content (write_file subFS wsRoot "sub" "hi").2 wsRoot "sub" = "hi" := by
  decide

/-- Claim C2 (amended): for every path that passes the sandbox guard and on
which the write succeeds — the intermediate directories can be created and the
target is not an existing directory — `write_file` followed immediately by
`get_file_content` returns the first 10000 characters of the content, hence
exactly the content when it has at most 10000 characters. -/
theorem c2_roundtrip (fs fs1 : FS) (root p c : String)
    (hin : passesSandboxCheck root p = true)
    (hmk : makedirs fs (dirnameC (resolvedComps root p)) = some fs1)
    (hnd : isDirFS fs1 (resolvedComps root p) = false) :
    get_file_content (write_file fs root p c).2 root p = strTake c 10000 ∧
    (c.length ≤ 10000 → get_file_content (write_file fs root p c).2 root p = c) := by
  have hw : (write_file fs root p c).2 = setFile fs1 (resolvedComps root p) c := by
    simp [write_file, hin, hmk, hnd]
  have hread : get_file_content (setFile fs1 (resolvedComps root p) c) root p =
      strTake c 10000 := by
    simp [get_file_content, hin, pathExistsFS, isFileFS_setFile, lookupFile_setFile]
  rw [hw]
  exact ⟨hread, fun hle => by rw [hread]; exact strTake_of_le c hle⟩

/-- Witness for the round-trip theorem at a concrete input. -/
theorem c2_roundtrip_witness :
    get_file_content (write_file baseFS wsRoot "notes.txt" "hello").2 wsRoot "notes.txt" =
      "hello" :=
  (c2_roundtrip baseFS baseFS wsRoot "notes.txt" "hello"
    (by decide) (by decide) (by decide)).2 (by decide)

/-- Claim C3 (code bug): the dispatcher reads required arguments with
`args["file_path"]` / `args["content"]` outside any `try`, so a tool call that
names a known tool but omits a required argument raises `KeyError` — crashing
the script run — instead of returning a MissingArgument result string; the
loop records the uncaught exception rather than a function-response turn. -/
theorem c3_missing_argument_raises :
    execute_tool defaultBehav baseFS wsRoot ⟨"get_file_content", []⟩ =
      DispatchResult.raised (keyErrorMsg "file_path") ∧
    execute_tool defaultBehav baseFS wsRoot ⟨"write_file", [("file_path", ArgVal.s "a.txt")]⟩ =
      DispatchResult.raised (keyErrorMsg "content") ∧
    (loopRound defaultBehav wsRoot ⟨none, [⟨"get_file_content", []⟩], ""⟩
      (initLoopState baseFS)).1.crashed = some (keyErrorMsg "file_path") := by
  decide

/-- Claim C4, counterexample: against a model that requests a tool call on
every reply, the loop does stop after ten model invocations, but it surfaces
no budget-exhausted notice: everything displayed is the prompt and the ten
tool notices, the status label still reads `Agent is thinking...`, and no
displayed string mentions a budget or exhaustion. -/
theorem c4_counterexample :
    c4Final.modelCalls = 10 ∧
    c4Final.statusLabel = "Agent is thinking..." ∧
    c4Final.finished = false ∧
    c4Final.displayed = "go" :: List.replicate 10 (toolNotice "get_files_info") ∧
    c4Final.displayed.any (fun s => containsSub s "budget") = false ∧
    c4Final.displayed.any (fun s => containsSub s "exhaust") = false := by
  decide

/-- Claim C4 (amended): a single user exchange performs at most ten model/tool
round-trips — the loop is `for i in range(10)` and stops by round ten even
against a model that always requests a tool call — but on budget exhaustion it
ends silently, without surfacing any budget-exhausted notice. -/
theorem c4_amended :
    (∀ (model : List Content → ModelResponse)
       (behav : String → List String → ScriptBehavior)
       (root prompt : String) (st : LoopState),
        (handleUserPrompt model behav root prompt st).modelCalls ≤ st.modelCalls + 10) ∧
    c4Final.modelCalls = 10 ∧
    c4Final.displayed = "go" :: List.replicate 10 (toolNotice "get_files_info") := by
  refine ⟨fun model behav root prompt st => ?_, by decide, by decide⟩
  exact runLoop_modelCalls_le model behav root 10 _

/-- Claim C5: in a round whose model reply requests several tool calls, only
the first is dispatched — the round computes exactly the same successor state
whether or not the trailing requests are present, so they are never executed.
-/
theorem c5_first_call_only (behav : String → List String → ScriptBehavior)
    (root : String) (r : ModelResponse) (st : LoopState)
    (fc : FuncCall) (rest : List FuncCall)
    (h : r.function_calls = fc :: rest) :
    loopRound behav root r st = loopRound behav root ⟨r.candidateContent, [fc], r.text⟩ st := by
  rcases r with ⟨oc, fcs, txt⟩
  have h2 : fcs = fc :: rest := h
  subst h2
  rfl

/-- Witness for the first-call-only theorem at a concrete reply carrying two
requested calls. -/
theorem c5_witness :
    loopRound defaultBehav wsRoot
        ⟨none, [⟨"get_files_info", []⟩, ⟨"write_file", []⟩], ""⟩ (initLoopState baseFS) =
      loopRound defaultBehav wsRoot
        ⟨none, [⟨"get_files_info", []⟩], ""⟩ (initLoopState baseFS) :=
  c5_first_call_only defaultBehav wsRoot _ _ _ _ rfl

/-- Claim C6: a tool call whose name is none of the four registered tools
makes the dispatcher return the UnknownTool result string (nothing is raised
and the filesystem is untouched), and the loop appends it as a normal
function-response turn and continues to the next round. -/
theorem c6_unknown_tool (behav : String → List String → ScriptBehavior)
    (fs : FS) (root : String) (call : FuncCall) (r : ModelResponse)
    (st : LoopState) (rest : List FuncCall)
    (h1 : ¬ call.name = "get_files_info") (h2 : ¬ call.name = "get_file_content")
    (h3 : ¬ call.name = "write_file") (h4 : ¬ call.name = "run_python_file")
    (hr : r.function_calls = call :: rest) :
    execute_tool behav fs root call =
      DispatchResult.ok "Error: Tool not found." fs RunOutcome.notRun ∧
    (loopRound behav root r st).2 = true ∧
    ∃ pre, (loopRound behav root r st).1.messages =
      pre ++ [toolRespContent call.name "Error: Tool not found."] := by
  have hexec : ∀ fsx : FS, execute_tool behav fsx root call =
      DispatchResult.ok "Error: Tool not found." fsx RunOutcome.notRun := by
    intro fsx
    simp [execute_tool, h1, h2, h3, h4]
  rcases r with ⟨oc, fcs, txt⟩
  have h5 : fcs = call :: rest := hr
  subst h5
  refine ⟨hexec fs, ?_, ?_⟩
  · cases oc <;> simp [loopRound, hexec]
  · cases oc with
    | none => exact ⟨st.messages, by simp [loopRound, hexec]⟩
    | some c => exact ⟨st.messages ++ [c], by simp [loopRound, hexec]⟩

/-- Witness for the unknown-tool theorem at a concrete unknown name. -/
theorem c6_witness :
    execute_tool defaultBehav baseFS wsRoot ⟨"format_disk", []⟩ =
      DispatchResult.ok "Error: Tool not found." baseFS RunOutcome.notRun ∧
    (loopRound defaultBehav wsRoot ⟨none, [⟨"format_disk", []⟩], ""⟩
      (initLoopState baseFS)).2 = true ∧
    ∃ pre, (loopRound defaultBehav wsRoot ⟨none, [⟨"format_disk", []⟩], ""⟩
      (initLoopState baseFS)).1.messages =
      pre ++ [toolRespContent "format_disk" "Error: Tool not found."] :=
  c6_unknown_tool defaultBehav baseFS wsRoot ⟨"format_disk", []⟩ _ _ _
    (by decide) (by decide) (by decide) (by decide) rfl

/-- Claim C7: listing an existing, empty in-sandbox directory returns the
designated sentinel `Directory is empty.`, which is not the blank string. -/
theorem c7_empty_dir_sentinel (fs : FS) (root directory : String)
    (hin : passesSandboxCheck root directory = true)
    (hdir : isDirFS fs (resolvedComps root directory) = true)
    (hempty : childrenNames fs (resolvedComps root directory) = []) :
    get_files_info fs root directory = "Directory is empty." ∧
    ¬ get_files_info fs root directory = "" := by
  have h : get_files_info fs root directory = "Directory is empty." := by
    simp [get_files_info, hin, pathExistsFS, hdir, hempty]
  exact ⟨h, by rw [h]; decide⟩

/-- Witness for the empty-directory sentinel on a concrete empty
subdirectory. -/
theorem c7_witness :
    get_files_info subFS wsRoot "sub" = "Directory is empty." ∧
    ¬ get_files_info subFS wsRoot "sub" = "" :=
  c7_empty_dir_sentinel subFS wsRoot "sub" (by decide) (by decide) (by decide)

/-- Claim C8: for an in-sandbox script, a run lasting beyond the 15-second
budget yields the Timeout error string with the child process killed, while a
run within the budget yields the labelled stdout section followed by the
labelled stderr section exactly when stderr is non-empty. -/
theorem c8_timeout_and_completion (behav : String → List String → ScriptBehavior)
    (root fp : String) (args : List String)
    (hin : passesSandboxCheck root fp = true) :
    (15 < (behav (resolvedPath root fp) args).duration →
      run_python_file behav root fp args =
        (timeoutMsg (resolvedPath root fp), RunOutcome.timedOutKilled)) ∧
    (¬ 15 < (behav (resolvedPath root fp) args).duration →
      run_python_file behav root fp args =
        (if (behav (resolvedPath root fp) args).stderr = ""
         then "STDOUT:\n" ++ (behav (resolvedPath root fp) args).stdout ++ "\n"
         else "STDOUT:\n" ++ (behav (resolvedPath root fp) args).stdout ++ "\n" ++
            "STDERR:\n" ++ (behav (resolvedPath root fp) args).stderr ++ "\n",
         RunOutcome.completed)) := by
  constructor
  · intro hdur
    simp [run_python_file, hin, hdur]
  · intro hdur
    simp [run_python_file, hin, hdur]

/-- Witness for the timeout/completion theorem: a slow script is reported as
timed out with its child killed, and a fast one returns its labelled stdout.
-/
theorem c8_witness :
    run_python_file slowBehav wsRoot "loop.py" [] =
      (timeoutMsg (resolvedPath wsRoot "loop.py"), RunOutcome.timedOutKilled) ∧
    run_python_file fastBehav wsRoot "hello.py" [] = ("STDOUT:\nHi\n", RunOutcome.completed) := by
  constructor
  · exact (c8_timeout_and_completion slowBehav wsRoot "loop.py" [] (by decide)).1 (by decide)
  · have h := (c8_timeout_and_completion fastBehav wsRoot "hello.py" [] (by decide)).2 (by decide)
    simpa using h

/-- Claim C9: conversation state is append-only — a whole user exchange
(prompt plus up to ten rounds) leaves every pre-existing turn in place and in
order, first appending the user turn and then only appending further turns. -/
theorem c9_append_only (model : List Content → ModelResponse)
    (behav : String → List String → ScriptBehavior) (root prompt : String)
    (st : LoopState) :
    ∃ t, (handleUserPrompt model behav root prompt st).messages =
      st.messages ++ (userTextContent prompt :: t) := by
  obtain ⟨t, ht⟩ := runLoop_messages_extends model behav root 10
    { st with
        messages := st.messages ++ [userTextContent prompt]
        displayed := st.displayed ++ [prompt]
        statusLabel := "Agent is thinking..." }
  refine ⟨t, ?_⟩
  have ht2 : (handleUserPrompt model behav root prompt st).messages =
      (st.messages ++ [userTextContent prompt]) ++ t := ht
  rw [ht2, List.append_assoc]
  rfl

/-- Claim C10: reading an in-sandbox path that exists but names a directory
passes the existence check and returns the exception-derived directory error
string — not the missing-file message (and, there being no file at the path,
no file content). -/
theorem c10_read_directory (fs : FS) (root p : String)
    (hin : passesSandboxCheck root p = true)
    (hdir : isDirFS fs (resolvedComps root p) = true)
    (hnofile : lookupFile fs (resolvedComps root p) = none) :
    get_file_content fs root p = isADirectoryMsg (resolvedPath root p) ∧
    ¬ get_file_content fs root p = "Error: File does not exist." := by
  have h : get_file_content fs root p = isADirectoryMsg (resolvedPath root p) := by
    simp [get_file_content, hin, pathExistsFS, hdir, hnofile]
  exact ⟨h, by rw [h]; exact isADirectoryMsg_ne_notfound _⟩

/-- Witness for the directory-read theorem on a concrete subdirectory. -/
theorem c10_witness :
    get_file_content subFS wsRoot "sub" = isADirectoryMsg (resolvedPath wsRoot "sub") ∧
    ¬ get_file_content subFS wsRoot "sub" = "Error: File does not exist." :=
  c10_read_directory subFS wsRoot "sub" (by decide) (by decide) (by decide)
